import Mathlib

/-!
Verification development for the python-smpp USSD gateway.

The definitions below are a shallow embedding, translated function by
function, of the repository's Python sources:

* `SendSubmitSm.py` — `run`, `_extract_session_id`, `send_submit_sm`,
  `http_request`;
* `SmppClient.py` — `patched_parse_optional_params`, `connect_gateway`,
  `is_connected`, `submit_short_message`;
* `SmppConfig.py` — `load_configuration`;
* `MtnUssd.py` — the reconnect loop inside `run`.

Python strings are modelled as `String` / `List Char`, byte strings as
`List Nat` (each entry a byte value), fallible code as `Option` / `Except`,
and the external `smpplib.consts` attribute surface as an explicit record of
optional tag constants.
-/

namespace PySmpp

/-- Whitespace characters recognised by Python's `str.strip()` for the ASCII
range: space, tab, newline, carriage return, vertical tab, form feed. -/
def isPySpace (c : Char) : Bool :=
  c == ' ' || c == '\t' || c == '\n' || c == Char.ofNat 13 ||
    c == Char.ofNat 11 || c == Char.ofNat 12

/-- Python `str.strip()`: remove whitespace from both ends. -/
def pyStrip (s : List Char) : List Char :=
  (((s.dropWhile isPySpace).reverse).dropWhile isPySpace).reverse

/-- Python `str.upper()` on one ASCII character (the only case exercised by
the `"END"` comparison in `send_submit_sm`). -/
def pyUpperChar (c : Char) : Char :=
  if 'a' ≤ c ∧ c ≤ 'z' then Char.ofNat (c.toNat - 32) else c

/-- Python `str.encode('ascii', errors='ignore')`: keep the code of every
character below 128, silently dropping the rest. -/
def asciiEncodeIgnore (s : List Char) : List Nat :=
  (s.filter (fun c => c.toNat < 128)).map (fun c => c.toNat)

/-- Value of a nonempty all-digit character list, `none` otherwise. -/
def digitsVal (ds : List Char) : Option Nat :=
  if ds ≠ [] ∧ ds.all (fun c => c.isDigit) then
    some (ds.foldl (fun acc c => acc * 10 + (c.toNat - 48)) 0)
  else none

/-- Python `int(s)` on a decimal string: surrounding whitespace allowed, an
optional sign, then digits; anything else raises `ValueError`, modelled as
`none`. -/
def pyInt? (s : List Char) : Option Int :=
  match pyStrip s with
  | '-' :: ds => (digitsVal ds).map (fun n => -(n : Int))
  | '+' :: ds => (digitsVal ds).map (fun n => (n : Int))
  | ds => (digitsVal ds).map (fun n => (n : Int))

/-- Python `int.to_bytes(4, 'big')`: four big-endian bytes when the value
fits in them, `OverflowError` (modelled as `none`) otherwise. -/
def toBytes4BE? (v : Int) : Option (List Nat) :=
  if 0 ≤ v ∧ v < 4294967296 then
    let n := v.toNat
    some [n / 16777216 % 256, n / 65536 % 256, n / 256 % 256, n % 256]
  else none

/-- Continuation byte test for UTF-8 (`0x80 ≤ b < 0xC0`). -/
def isUtf8Cont (b : Nat) : Prop := 128 ≤ b ∧ b < 192

instance (b : Nat) : Decidable (isUtf8Cont b) := by
  unfold isUtf8Cont; infer_instance

/-- Strict UTF-8 decoding, as performed by Python `bytes.decode('utf-8')`:
`none` models a raised `UnicodeDecodeError` (invalid lead byte, bad
continuation byte, truncated sequence, overlong form, surrogate, or a code
point beyond U+10FFFF). -/
def utf8Decode? : List Nat → Option (List Char)
  | [] => some []
  | b :: rest =>
    if b < 128 then
      (utf8Decode? rest).map (fun cs => Char.ofNat b :: cs)
    else if b < 194 then none
    else if b < 224 then
      match rest with
      | b1 :: r1 =>
        if isUtf8Cont b1 then
          (utf8Decode? r1).map (fun cs =>
            Char.ofNat ((b - 192) * 64 + (b1 - 128)) :: cs)
        else none
      | [] => none
    else if b < 240 then
      match rest with
      | b1 :: b2 :: r2 =>
        if isUtf8Cont b1 ∧ isUtf8Cont b2 ∧ (b ≠ 224 ∨ 160 ≤ b1) ∧
            (b ≠ 237 ∨ b1 < 160) then
          (utf8Decode? r2).map (fun cs =>
            Char.ofNat ((b - 224) * 4096 + (b1 - 128) * 64 + (b2 - 128)) :: cs)
        else none
      | [_] => none
      | [] => none
    else if b < 245 then
      match rest with
      | b1 :: b2 :: b3 :: r3 =>
        if isUtf8Cont b1 ∧ isUtf8Cont b2 ∧ isUtf8Cont b3 ∧
            (b ≠ 240 ∨ 144 ≤ b1) ∧ (b ≠ 244 ∨ b1 < 144) then
          (utf8Decode? r3).map (fun cs =>
            Char.ofNat ((b - 240) * 262144 + (b1 - 128) * 4096 +
              (b2 - 128) * 64 + (b3 - 128)) :: cs)
        else none
      | [_, _] => none
      | [_] => none
      | [] => none
    else none

/-- Fuelled worker for `utf8DecodeIgnore`: every step consumes at least
one byte and one unit of fuel, so with fuel at least the input length the
fuel-exhausted branch is never taken. -/
def utf8DecodeIgnoreAux : Nat → List Nat → List Char
  | _, [] => []
  | 0, _ :: _ => []
  | fuel + 1, b :: rest =>
    if b < 128 then Char.ofNat b :: utf8DecodeIgnoreAux fuel rest
    else if b < 194 then utf8DecodeIgnoreAux fuel rest
    else if b < 224 then
      match rest with
      | b1 :: r1 =>
        if isUtf8Cont b1 then
          Char.ofNat ((b - 192) * 64 + (b1 - 128)) ::
            utf8DecodeIgnoreAux fuel r1
        else utf8DecodeIgnoreAux fuel rest
      | [] => []
    else if b < 240 then
      match rest with
      | b1 :: b2 :: r2 =>
        if isUtf8Cont b1 ∧ isUtf8Cont b2 ∧ (b ≠ 224 ∨ 160 ≤ b1) ∧
            (b ≠ 237 ∨ b1 < 160) then
          Char.ofNat ((b - 224) * 4096 + (b1 - 128) * 64 + (b2 - 128)) ::
            utf8DecodeIgnoreAux fuel r2
        else utf8DecodeIgnoreAux fuel rest
      | _ => utf8DecodeIgnoreAux fuel rest
    else if b < 245 then
      match rest with
      | b1 :: b2 :: b3 :: r3 =>
        if isUtf8Cont b1 ∧ isUtf8Cont b2 ∧ isUtf8Cont b3 ∧
            (b ≠ 240 ∨ 144 ≤ b1) ∧ (b ≠ 244 ∨ b1 < 144) then
          Char.ofNat ((b - 240) * 262144 + (b1 - 128) * 4096 +
            (b2 - 128) * 64 + (b3 - 128)) :: utf8DecodeIgnoreAux fuel r3
        else utf8DecodeIgnoreAux fuel rest
      | _ => utf8DecodeIgnoreAux fuel rest
    else utf8DecodeIgnoreAux fuel rest

/-- UTF-8 decoding with Python's `errors='ignore'` handler: a byte at which
decoding fails is dropped and decoding resumes on the remaining bytes, so
the function is total. -/
def utf8DecodeIgnore (l : List Nat) : List Char :=
  utf8DecodeIgnoreAux l.length l

/-- UTF-8 encoding of one character (used by `urllib.parse.quote`, which
percent-encodes the UTF-8 bytes of its input). -/
def utf8EncodeChar (c : Char) : List Nat :=
  let n := c.toNat
  if n < 128 then [n]
  else if n < 2048 then [192 + n / 64, 128 + n % 64]
  else if n < 65536 then [224 + n / 4096, 128 + n / 64 % 64, 128 + n % 64]
  else [240 + n / 262144, 128 + n / 4096 % 64, 128 + n / 64 % 64, 128 + n % 64]

/-- Uppercase hexadecimal digit, as produced by `urllib.parse.quote`. -/
def hexDigitChar (n : Nat) : Char :=
  if n < 10 then Char.ofNat (48 + n) else Char.ofNat (55 + n)

/-- Bytes `urllib.parse.quote` leaves unescaped when `safe=''`: ASCII
letters, digits, and `_ . - ~`. -/
def quoteSafeByte (b : Nat) : Bool :=
  (65 ≤ b && b ≤ 90) || (97 ≤ b && b ≤ 122) || (48 ≤ b && b ≤ 57) ||
    b == 95 || b == 46 || b == 45 || b == 126

/-- Percent-encoding of one byte. -/
def percentEncodeByte (b : Nat) : List Char :=
  if quoteSafeByte b then [Char.ofNat b]
  else ['%', hexDigitChar (b / 16), hexDigitChar (b % 16)]

/-- Python `urllib.parse.quote(s, safe='')`: UTF-8 encode, then
percent-encode every byte outside the always-safe set. -/
def pyQuote (s : List Char) : List Char :=
  (((s.map utf8EncodeChar).flatten).map percentEncodeByte).flatten

/-! ## The external `smpplib.consts` attribute surface

`SendSubmitSm.py` probes the third-party `smpplib.consts` module with
`hasattr` for several alternative spellings of the session-info and
ussd-service-op tag constants.  The library is outside this repository, so
the probe results are modelled as a record of optional numeric constants:
`some n` means the attribute exists with value `n`, `none` that `hasattr`
is false. -/

structure ConstsRegistry where
  TAG_ITS_SESSION_INFO : Option Nat
  Tag_its_session_info : Option Nat
  attr_its_session_info : Option Nat
  TAG_USSD_SERVICE_OP : Option Nat
  Tag_ussd_service_op : Option Nat
  attr_ussd_service_op : Option Nat
deriving DecidableEq

/-- The `if hasattr(...) / elif ... / elif ...` cascade of
`send_submit_sm` (lines 90–95) resolving the session-info tag. -/
def resolveSessionTag (r : ConstsRegistry) : Option Nat :=
  match r.TAG_ITS_SESSION_INFO with
  | some t => some t
  | none =>
    match r.Tag_its_session_info with
    | some t => some t
    | none => r.attr_its_session_info

/-- The cascade of `send_submit_sm` (lines 114–119) resolving the
ussd-service-op tag. -/
def resolveUssdTag (r : ConstsRegistry) : Option Nat :=
  match r.TAG_USSD_SERVICE_OP with
  | some t => some t
  | none =>
    match r.Tag_ussd_service_op with
    | some t => some t
    | none => r.attr_ussd_service_op

/-- A key of the `optional_parameters` dict on an inbound PDU: the
third-party decoder may use either string names or numeric tags. -/
inductive TagKey where
  | str (s : String)
  | num (n : Nat)
deriving DecidableEq

/-- A value of the `optional_parameters` dict: raw bytes, a string, or an
integer. -/
inductive PyVal where
  | bytes (bs : List Nat)
  | pstr (s : String)
  | pint (n : Int)
deriving DecidableEq

/-- The tag comparison of `_extract_session_id` (lines 67–69): the literal
string `'its_session_info'`, or — when the corresponding `smpplib.consts`
attribute exists — its numeric value. -/
def sessionTagMatches (r : ConstsRegistry) (t : TagKey) : Bool :=
  t == TagKey.str "its_session_info" ||
    (match r.TAG_ITS_SESSION_INFO with
     | some n => t == TagKey.num n
     | none => false) ||
    (match r.Tag_its_session_info with
     | some n => t == TagKey.num n
     | none => false)

/-- Body of the `for tag, value in ...optional_parameters.items()` loop of
`_extract_session_id`: the first matching entry is returned — decoded as
UTF-8 when it is bytes (`Except.error` models a raised
`UnicodeDecodeError`), via `str()` otherwise; `Except.ok none` models the
Python `return None` when no entry matches. -/
def extractLoop (r : ConstsRegistry) :
    List (TagKey × PyVal) → Except Unit (Option String)
  | [] => Except.ok none
  | (t, v) :: rest =>
    if sessionTagMatches r t then
      match v with
      | PyVal.bytes bs =>
        match utf8Decode? bs with
        | some cs => Except.ok (some (String.mk cs))
        | none => Except.error ()
      | PyVal.pstr s => Except.ok (some s)
      | PyVal.pint n => Except.ok (some (toString n))
    else extractLoop r rest

/-- An inbound `deliver_sm` PDU as consumed by `SendSubmitSm`: each address
field is `some bytes` when the attribute is present and `none` when the
`hasattr` test fails; `optional_parameters` is the decoded tag/value dict
(an empty list doubles for an absent or empty dict, both of which skip the
extraction loop). -/
structure Pdu where
  destination_addr : Option (List Nat)
  source_addr : Option (List Nat)
  short_message : Option (List Nat)
  optional_parameters : List (TagKey × PyVal)

/-- `SendSubmitSm._extract_session_id` (lines 62–74). -/
def extract_session_id (r : ConstsRegistry) (p : Pdu) :
    Except Unit (Option String) :=
  extractLoop r p.optional_parameters

/-- Session-id resolution inside `SendSubmitSm.run` (lines 32–35): the
extracted id, with `None` replaced by the default `"0"`. -/
def run_session_id (r : ConstsRegistry) (p : Pdu) : Except Unit String :=
  match extract_session_id r p with
  | Except.error e => Except.error e
  | Except.ok none => Except.ok "0"
  | Except.ok (some s) => Except.ok s

/-! ## Outbound frame construction (`send_submit_sm`) -/

/-- The keyword arguments passed to `smpp_client.submit_short_message` at
the end of `send_submit_sm` (constant TON/NPI/data-coding arguments are
omitted; `optional_parameters` is `none` when the Python code passes
`None` because the TLV list is empty). -/
structure SubmittedFrame where
  source_addr : String
  destination_addr : String
  short_message : List Nat
  service_type : Option String
  optional_parameters : Option (List (Nat × List Nat))
deriving DecidableEq

/-- Python `dict` assignment `d[k] = v` on a dict represented as an
insertion-ordered association list. -/
def dictInsert (l : List (Nat × List Nat)) (k : Nat) (v : List Nat) :
    List (Nat × List Nat) :=
  if l.any (fun p => p.1 == k) then
    l.map (fun p => if p.1 == k then (k, v) else p)
  else l ++ [(k, v)]

/-- `SendSubmitSm.send_submit_sm` (lines 80–146), up to the frame handed to
`smpp_client.submit_short_message`.  A `none` result models the case where
an exception (a `ValueError` from `int(session_id)` or an `OverflowError`
from `to_bytes`) aborts the function before any frame is built — `run`'s
`except` block swallows it.  `message` is the `message` parameter,
`session_id` the sentinel-or-token session id. -/
def send_submit_sm (r : ConstsRegistry) (service_type : Option String)
    (message : List Char) (source destination : String)
    (session_id : String) : Option SubmittedFrame :=
  let withSession : Option (List (Nat × List Nat)) :=
    if session_id ≠ "" ∧ session_id ≠ "0" then
      match resolveSessionTag r with
      | some t =>
        if t ≠ 0 then
          match pyInt? session_id.toList with
          | some v =>
            match toBytes4BE? v with
            | some bs => some [(t, bs)]
            | none => none
          | none => none
        else some []
      | none => some []
    else some []
  match withSession with
  | none => none
  | some sessParams =>
    let end_session : List Char :=
      if message.length ≥ 3 then (message.take 3).map pyUpperChar else []
    let isEnd : Bool := end_session == ['E', 'N', 'D']
    let ussd_op_value : List Nat := if isEnd then [17] else [2]
    let message2 : List Char :=
      if isEnd then pyStrip (message.drop 3) else message
    let params : List (Nat × List Nat) :=
      match resolveUssdTag r with
      | some u => if u ≠ 0 then dictInsert sessParams u ussd_op_value
                  else sessParams
      | none => sessParams
    some { source_addr := source
           destination_addr := destination
           short_message := asciiEncodeIgnore message2
           service_type := service_type
           optional_parameters :=
             if params = [] then none else some params }

/-! ## Backend call (`http_request`) -/

/-- Outcome of `urllib.request.urlopen(url, timeout=10)` plus the body
read/decode: `urlError` is a raised `urllib.error.URLError` (connection
failure or timeout), `exn` any other exception inside the `try` block, and
`body s` a successfully read and UTF-8-decoded response body. -/
inductive BackendOutcome where
  | urlError
  | exn
  | body (s : String)
deriving DecidableEq

/-- The fallback text hard-coded in `http_request` (line 152). -/
def default_response : String := "System Error. Please try again later. Thanks"

/-- `SendSubmitSm.http_request` (lines 148–165): both exception branches
return the fallback, a truthy (nonempty) body is returned stripped, and a
falsy (empty) body yields the fallback. -/
def http_request (_url : String) (outcome : BackendOutcome) : String :=
  match outcome with
  | BackendOutcome.urlError => default_response
  | BackendOutcome.exn => default_response
  | BackendOutcome.body s =>
    if s ≠ "" then String.mk (pyStrip s.toList) else default_response

/-! ## Configuration (`SmppConfig.load_configuration`) -/

/-- A value stored on the config object: a string, an integer, or Python
`None`. -/
inductive ConfVal where
  | vstr (s : String)
  | vint (n : Int)
  | vnone
deriving DecidableEq

/-- How a Python f-string renders a config value. -/
def confValRepr : ConfVal → String
  | ConfVal.vstr s => s
  | ConfVal.vint n => toString n
  | ConfVal.vnone => "None"

/-- Wrap an optional string as a config value (`None` when absent). -/
def optStrVal : Option String → ConfVal
  | some s => ConfVal.vstr s
  | none => ConfVal.vnone

/-- The environment and `conf/settings.conf` key/value surfaces read by
`load_configuration`: `env` is `os.getenv`, `file` is
`ConfigParser.get(..., fallback=None)`, and `fileInt` the parsed integer of
a key that is present in the file (`none` when the key is absent, in which
case the `fallback` argument of `getint` applies). -/
structure ConfigSources where
  env : String → Option String
  file : String → Option String
  fileInt : String → Option Int

/-- Python's `os.getenv(k) or cfg.get(...)` idiom: the environment value
wins only when it is truthy (nonempty). -/
def pyOrStr (a b : Option String) : Option String :=
  match a with
  | some s => if s ≠ "" then some s else b
  | none => b

/-- The `if env_value: int(env_value) else getint(..., fallback=d)` pattern
used for the three integer settings; `none` models the `ValueError` raised
by `int()` on a malformed environment value, which aborts the whole load. -/
def envIntOr (src : ConfigSources) (key : String) (fallback : Int) :
    Option Int :=
  match src.env key with
  | some e => if e ≠ "" then pyInt? e.toList
              else some ((src.fileInt key).getD fallback)
  | none => some ((src.fileInt key).getD fallback)

/-- `SmppConfig.load_configuration` (lines 56–103) as the ordered list of
attribute assignments it performs on the config object; `none` models a
raised exception (a malformed integer environment variable), after which
`SmppConfig.__init__` prints an error and exits the process. -/
def load_configuration (src : ConfigSources) :
    Option (List (String × ConfVal)) :=
  match envIntOr src "SMPP_PORT" 0, envIntOr src "SEND_USSD_PORT" 0,
      envIntOr src "NUMBER_OF_THREADS" 10 with
  | some serverPort, some sendUssdPort, some nThreads =>
    some
      [ ("server_ip", optStrVal (pyOrStr (src.env "SMPP_SERVER") (src.file "SMPP_SERVER"))),
        ("server_port", ConfVal.vint serverPort),
        ("account", optStrVal (pyOrStr (src.env "SMPP_USERNAME") (src.file "SMPP_USERNAME"))),
        ("password", optStrVal (pyOrStr (src.env "SMPP_PASSWPORD") (src.file "SMPP_PASSWPORD"))),
        ("system_type", ConfVal.vstr ((pyOrStr (src.env "SYSTEM_TYPE") (src.file "SYSTEM_TYPE")).getD "")),
        ("service_type", optStrVal (pyOrStr (src.env "SERVICE_TYPE") (src.file "SERVICE_TYPE"))),
        ("process_url", ConfVal.vstr ((pyOrStr (src.env "PROCESS_URL") (src.file "PROCESS_URL")).getD "")),
        ("service_code", optStrVal (pyOrStr (src.env "SERVICE_CODE") (src.file "SERVICE_CODE"))),
        ("send_ussd_username", optStrVal (pyOrStr (src.env "SEND_USSD_USERNAME") (src.file "SEND_USSD_USERNAME"))),
        ("send_ussd_password", optStrVal (pyOrStr (src.env "SEND_USSD_PASSWORD") (src.file "SEND_USSD_PASSWORD"))),
        ("send_ussd_port", ConfVal.vint sendUssdPort),
        ("number_of_threads", ConfVal.vint nThreads) ]
  | _, _, _ => none

/-! ## The dispatcher worker (`SendSubmitSm.run`) -/

/-- The configuration attributes `run` reads from `self`.  `network` is an
*attribute lookup* result — `none` means the object has no such attribute,
so that reading it raises `AttributeError`. -/
structure RunConfig where
  process_url : String
  send_ussd_port : Int
  network : Option String
  service_code : String
  service_type : Option String

/-- The config attributes relevant to `run`, read off an attribute
assignment list produced by `load_configuration`. -/
def mkRunConfig (l : List (String × ConfVal)) : RunConfig :=
  { process_url := confValRepr ((l.lookup "process_url").getD ConfVal.vnone)
    send_ussd_port :=
      match l.lookup "send_ussd_port" with
      | some (ConfVal.vint n) => n
      | _ => 0
    network := (l.lookup "network").map confValRepr
    service_code := confValRepr ((l.lookup "service_code").getD ConfVal.vnone)
    service_type :=
      match l.lookup "service_type" with
      | some (ConfVal.vstr s) => some s
      | _ => none }

/-- External inputs of one `run` invocation: the `smpplib.consts` surface,
the backend's behaviour for the (single possible) HTTP call, and the result
of `self.smpp_client.is_connected()`. -/
structure RunEnv where
  reg : ConstsRegistry
  backend : BackendOutcome
  connected : Bool

/-- `SendSubmitSm.run` (lines 20–60), observed through the list of backend
URLs requested and the frame submitted (if any).  Every exception path —
strict-UTF-8 failure on an address, a `UnicodeDecodeError` escaping
`_extract_session_id`, or the `AttributeError` raised when `self.network`
is missing while the request URL f-string is evaluated — is caught by the
function's own `except` block, yielding `([], none)`. -/
def run (cfg : RunConfig) (env : RunEnv) (p : Pdu) :
    List String × Option SubmittedFrame :=
  match (match p.destination_addr with
         | some bs => (utf8Decode? bs).map String.mk
         | none => some "") with
  | none => ([], none)
  | some _msgs_dest =>
    match (match p.source_addr with
           | some bs => (utf8Decode? bs).map String.mk
           | none => some "") with
    | none => ([], none)
    | some msisdn =>
      let payload : List Char :=
        match p.short_message with
        | some bs => utf8DecodeIgnore bs
        | none => []
      if pyStrip payload ≠ [] then
        match run_session_id env.reg p with
        | Except.error _ => ([], none)
        | Except.ok session_id =>
          match cfg.network with
          | none => ([], none)
          | some nw =>
            let call_url : String :=
              cfg.process_url ++ "?msisdn=" ++ msisdn ++ "&sessionid=" ++
                session_id ++ "&input=" ++ String.mk (pyQuote payload) ++
                "&sendussd_port=" ++ toString cfg.send_ussd_port ++
                "&network=" ++ nw
            let menu_response := http_request call_url env.backend
            if env.connected then
              ([call_url],
               send_submit_sm env.reg cfg.service_type menu_response.toList
                 cfg.service_code msisdn session_id)
            else ([call_url], none)
      else ([], none)

/-! ## SMPP client state machine (`SmppClient.py`)

`SmppClient` guards its methods with `self._lock`, a **non-reentrant**
`threading.Lock`.  Acquiring it while the same thread already holds it
blocks forever, so lock-guarded code is modelled in a `LockedResult` that
has an explicit `deadlock` outcome. -/

/-- Result of running a `with self._lock:` body: either the body's value,
or a self-deadlock because the calling thread already held the lock. -/
inductive LockedResult (α : Type) where
  | deadlock
  | result (a : α)
deriving DecidableEq

deriving instance DecidableEq for Except

/-- The client attributes read by `is_connected` / `submit_short_message`:
`_connected`, whether `self.conn` is not `None`, `conn.state`, whether
`conn.socket` is not `None`, and whether sending the probe `EnquireLink`
PDU succeeds. -/
structure ClientState where
  connected : Bool
  hasConn : Bool
  connState : String
  hasSocket : Bool
  enquireOk : Bool
deriving DecidableEq

/-- The body of `SmppClient.is_connected` (lines 252–274), inside the lock:
returns the boolean result together with the updated state (`_connected`
is cleared when the probe send raises). -/
def is_connected_body (s : ClientState) : Bool × ClientState :=
  if ¬s.connected ∨ ¬s.hasConn then (false, s)
  else if ¬(s.connState = "BOUND_TRX") then (false, s)
  else if s.hasSocket then
    if s.enquireOk then (true, s)
    else (false, { s with connected := false })
  else (false, s)

/-- `SmppClient.is_connected` including its `with self._lock:` guard:
`lockHeld` says whether the calling thread already holds `self._lock`. -/
def is_connected (lockHeld : Bool) (s : ClientState) :
    LockedResult (Bool × ClientState) :=
  if lockHeld then LockedResult.deadlock
  else LockedResult.result (is_connected_body s)

/-- Outcome of `self.conn.send_message(**kwargs)`. -/
inductive SendOutcome where
  | sendOk
  | errReset
  | errOther
deriving DecidableEq

/-- `SmppClient.submit_short_message` (lines 294–306).  The triple carries
the Python-level result (`Except.error` = raised exception), the updated
client state, and whether `send_message` was ever invoked.  The method
enters `with self._lock:` and then calls `self.is_connected()` — which
tries to take the same non-reentrant lock. -/
def submit_short_message (lockHeld : Bool) (s : ClientState)
    (send : SendOutcome) :
    LockedResult (Except String Unit × ClientState × Bool) :=
  if lockHeld then LockedResult.deadlock
  else
    match is_connected true s with
    | LockedResult.deadlock => LockedResult.deadlock
    | LockedResult.result (c, s1) =>
      if ¬c then
        LockedResult.result (Except.error "Session not connected", s1, false)
      else
        match send with
        | SendOutcome.sendOk =>
          LockedResult.result (Except.ok (), s1, true)
        | SendOutcome.errReset =>
          LockedResult.result
            (Except.error "Connection reset",
             { s1 with connected := false }, true)
        | SendOutcome.errOther =>
          LockedResult.result (Except.error "send error", s1, true)

/-- What the *guard logic* of `submit_short_message` does, ignoring the
lock re-acquisition: the `if not self.is_connected(): raise
Exception("Session not connected")` check followed by the delegated send.
This is the behaviour the spec describes. -/
def submit_guard_logic (s : ClientState) (send : SendOutcome) :
    Except String Unit × ClientState × Bool :=
  match is_connected_body s with
  | (false, s1) => (Except.error "Session not connected", s1, false)
  | (true, s1) =>
    match send with
    | SendOutcome.sendOk => (Except.ok (), s1, true)
    | SendOutcome.errReset =>
      (Except.error "Connection reset", { s1 with connected := false }, true)
    | SendOutcome.errOther => (Except.error "send error", s1, true)

/-- Outcome of `self.conn.connect()` followed by `bind_transceiver`. -/
inductive BindOutcome where
  | bound
  | connectFail
  | bindFail
deriving DecidableEq

/-- `SmppClient.connect_gateway` (lines 120–170), after the best-effort
teardown of any previous connection (whose errors are swallowed): on
success it sets `_connected`, starts the listener and returns `True`; on a
connect or bind failure it clears `_connected` and **re-raises** the
exception (`Except.error`). -/
def connect_gateway (o : BindOutcome) : Except String Bool × ClientState :=
  match o with
  | BindOutcome.bound =>
    (Except.ok true,
     { connected := true, hasConn := true, connState := "BOUND_TRX",
       hasSocket := true, enquireOk := true })
  | BindOutcome.connectFail =>
    (Except.error "connect failed",
     { connected := false, hasConn := true, connState := "OPEN",
       hasSocket := false, enquireOk := false })
  | BindOutcome.bindFail =>
    (Except.error "bind failed",
     { connected := false, hasConn := true, connState := "OPEN",
       hasSocket := true, enquireOk := false })

/-! ## Reconnect loop (`MtnUssd.run`, lines 103–127) -/

/-- Outcome of the `self.client_instance.connect_gateway()` call inside the
reconnect loop: it returned truthy, returned falsy, or raised. -/
inductive ReconnectOutcome where
  | success
  | returnedFalse
  | raised
deriving DecidableEq

/-- One reconnection pass of the main loop, entered with the current
`connection_attempts` counter when `is_connected()` is false: sleeps
`min(2 ** connection_attempts, 60)` seconds, attempts the reconnect, and
yields `(delay slept, new counter, retry flag still true)`.  The counter
resets to zero on success and increments on either kind of failure; after
`max_connection_attempts = 5` consecutive failures `self.retry` is set
false. -/
def reconnect_iteration (connection_attempts : Nat) (o : ReconnectOutcome) :
    Nat × Nat × Bool :=
  let backoff_time := min (2 ^ connection_attempts) 60
  match o with
  | ReconnectOutcome.success => (backoff_time, 0, true)
  | ReconnectOutcome.returnedFalse =>
    (backoff_time, connection_attempts + 1,
     decide (connection_attempts + 1 < 5))
  | ReconnectOutcome.raised =>
    (backoff_time, connection_attempts + 1,
     decide (connection_attempts + 1 < 5))

/-- The delays slept during a streak of `k` consecutive failing
reconnection passes, starting from counter value `a`. -/
def reconnect_streak (a : Nat) : Nat → List Nat
  | 0 => []
  | k + 1 =>
    (reconnect_iteration a ReconnectOutcome.raised).1 ::
      reconnect_streak ((reconnect_iteration a ReconnectOutcome.raised).2.1)
        k

/-! ## Patched optional-parameter parser
(`SmppClient.patched_parse_optional_params`, lines 20–63) -/

/-- One entry of a PDU class's `params` registry: the decoder metadata for
a known tag.  `name` is `param.get('name')` (`none` when missing) and
`hasType` whether `param.get('type')` is present; `multi` selects the
append-to-list branch. -/
structure ParamSpec where
  name : Option String
  hasType : Bool
  multi : Bool
deriving DecidableEq

/-- `patched_parse_optional_params`, observed as the ordered list of
`(attribute name, raw value bytes)` settings it performs.  The loop reads
records of tag (2 bytes big-endian), length (2 bytes big-endian) and
value; it breaks when fewer than 4 bytes remain or when the declared value
length overruns the data, skips unrecognised and misconfigured tags, and
never raises. -/
def parse_optional_params (params : List (Nat × ParamSpec)) :
    List Nat → List (String × List Nat)
  | t1 :: t2 :: l1 :: l2 :: rest =>
    let field := t1 * 256 + t2
    let length := l1 * 256 + l2
    if length > rest.length then []
    else
      let value := rest.take length
      let entry : List (String × List Nat) :=
        match params.lookup field with
        | some spec =>
          match spec.name with
          | some nm => if spec.hasType then [(nm, value)] else []
          | none => []
        | none => []
      entry ++ parse_optional_params params (rest.drop length)
  | _ => []
termination_by l => l.length
decreasing_by simp [List.length_drop]; omega

/-! ## Shared fixtures -/

/-- A consts surface exposing the standard SMPP tag values:
`its_session_info = 0x1383 = 5003` and `ussd_service_op = 0x0501 = 1281`,
both through the `TAG_*` spelling. -/
def stdConsts : ConstsRegistry :=
  { TAG_ITS_SESSION_INFO := some 5003
    Tag_its_session_info := none
    attr_its_session_info := none
    TAG_USSD_SERVICE_OP := some 1281
    Tag_ussd_service_op := none
    attr_ussd_service_op := none }

/-! ## Claim theorems -/

/-- C6: `http_request` never propagates an exception — on a transport-level
failure or timeout (`URLError`) and on any other exception it returns
exactly the fixed fallback string `"System Error. Please try again later.
Thanks"`; on success it returns the response body stripped of surrounding
whitespace, and an empty body yields the fallback string.  The function is
total over every outcome, so no exception escapes. -/
theorem http_request_fallback_and_trim :
    (∀ url, http_request url BackendOutcome.urlError = default_response ∧
       http_request url BackendOutcome.exn = default_response) ∧
    (∀ url s, s ≠ "" →
       http_request url (BackendOutcome.body s) = String.mk (pyStrip s.toList)) ∧
    (∀ url, http_request url (BackendOutcome.body "") = default_response) ∧
    default_response = "System Error. Please try again later. Thanks" := by
  refine ⟨fun _ => ⟨rfl, rfl⟩, fun url s hs => ?_, fun _ => rfl, rfl⟩
  simp [http_request, hs]

/-- Witness for C6 at a concrete body with surrounding whitespace. -/
theorem http_request_fallback_and_trim_witness :
    http_request "http://x" (BackendOutcome.body " ok ") =
      String.mk (pyStrip " ok ".toList) :=
  http_request_fallback_and_trim.2.1 "http://x" " ok " (by decide)

/-- The delays of a failure streak are `min(2^(a+i), 60)` for `i` below the
streak length. -/
theorem reconnect_streak_eq (a k : Nat) :
    reconnect_streak a k = (List.range k).map (fun i => min (2 ^ (a + i)) 60) := by
  induction k generalizing a with
  | zero => rfl
  | succ k ih =>
    rw [List.range_succ_eq_map]
    simp only [reconnect_streak, reconnect_iteration, List.map_cons,
      List.map_map, Nat.add_zero, ih]
    congr 1
    apply List.map_congr_left
    intro i _
    simp [Function.comp, Nat.add_assoc, Nat.add_comm 1 i]

/-- C7: the delay before a reconnect attempt with `n` failures so far is
`min(1 * 2^n, 60)` (base 1 second, cap 60 seconds); each failure increments
the counter, so successive delays in a streak are non-decreasing and
pairwise bounded by the cap; a successful reconnect resets the counter to
zero, so the delay of the next pass restarts at the base value 1. -/
theorem reconnect_backoff_policy :
    (∀ n o, (reconnect_iteration n o).1 = min (1 * 2 ^ n) 60) ∧
    (∀ n, (reconnect_iteration n ReconnectOutcome.returnedFalse).2.1 = n + 1 ∧
       (reconnect_iteration n ReconnectOutcome.raised).2.1 = n + 1) ∧
    (∀ n, (reconnect_iteration n ReconnectOutcome.raised).1 ≤
       (reconnect_iteration (n + 1) ReconnectOutcome.raised).1) ∧
    (∀ n o, (reconnect_iteration n o).1 ≤ 60) ∧
    (∀ n, (reconnect_iteration n ReconnectOutcome.success).2.1 = 0) ∧
    (∀ k, (reconnect_streak 0 k).Pairwise (· ≤ ·)) ∧
    (reconnect_iteration 0 ReconnectOutcome.raised).1 = 1 := by
  refine ⟨fun n o => ?_, fun n => ⟨rfl, rfl⟩, fun n => ?_, fun n o => ?_,
    fun n => rfl, fun k => ?_, rfl⟩
  · cases o <;> simp [reconnect_iteration]
  · simp only [reconnect_iteration]
    exact min_le_min (Nat.pow_le_pow_right (by norm_num) (Nat.le_succ n))
      (le_refl 60)
  · cases o <;> exact min_le_right _ _
  · rw [reconnect_streak_eq]
    exact (List.pairwise_lt_range k).map _
      (fun i j hij =>
        min_le_min (Nat.pow_le_pow_right (by norm_num)
          (by omega : 0 + i ≤ 0 + j)) (le_refl 60))

/-- C5 counterexample: `connect_gateway` does raise past its boundary — on
a transport connect failure the caller receives a propagated exception
(`Except.error`), not a success/failure value. -/
theorem connect_gateway_raises_counterexample :
    (connect_gateway BindOutcome.connectFail).1 =
      Except.error "connect failed" := rfl

/-- C5 (amended): `connect_gateway` returns `True` and marks the client
connected on success; on a failure of the transport connect or of the bind
handshake it clears `_connected` and re-raises the exception to its caller
(both of its callers in `MtnUssd.py` wrap the call in `try`/`except`). -/
theorem connect_gateway_success_or_raise :
    (connect_gateway BindOutcome.bound).1 = Except.ok true ∧
    (connect_gateway BindOutcome.bound).2.connected = true ∧
    (∀ o, o ≠ BindOutcome.bound →
       (∃ msg, (connect_gateway o).1 = Except.error msg) ∧
       (connect_gateway o).2.connected = false) := by
  refine ⟨rfl, rfl, fun o ho => ?_⟩
  cases o with
  | bound => exact absurd rfl ho
  | connectFail => exact ⟨⟨"connect failed", rfl⟩, rfl⟩
  | bindFail => exact ⟨⟨"bind failed", rfl⟩, rfl⟩

/-- Witness for C5 (amended) at the bind-failure outcome. -/
theorem connect_gateway_success_or_raise_witness :
    (∃ msg, (connect_gateway BindOutcome.bindFail).1 = Except.error msg) ∧
    (connect_gateway BindOutcome.bindFail).2.connected = false :=
  connect_gateway_success_or_raise.2.2 BindOutcome.bindFail (by decide)

/-- A freshly initialised `SmppClient`: `_connected = False`, `conn =
None`. -/
def freshClient : ClientState :=
  { connected := false, hasConn := false, connState := "",
    hasSocket := false, enquireOk := false }

/-- C3 (code bug): `submit_short_message` acquires the non-reentrant
`threading.Lock` and then calls `is_connected()`, which tries to acquire
the same lock — so every invocation self-deadlocks: it never raises
`"Session not connected"` and never reaches `send_message` (first
conjunct).  The guard logic the method was written to implement — raise
`"Session not connected"` and skip the transport whenever `is_connected`
is false — is exactly the claimed behaviour (second conjunct). -/
theorem submit_short_message_deadlocks :
    (∀ s send, submit_short_message false s send = LockedResult.deadlock) ∧
    (∀ s send, (is_connected_body s).1 = false →
       submit_guard_logic s send =
         (Except.error "Session not connected", (is_connected_body s).2,
          false)) := by
  refine ⟨fun s send => rfl, fun s send h => ?_⟩
  unfold submit_guard_logic
  split
  · next s1 heq => rw [heq]
  · next s1 heq => rw [heq] at h; simp at h

/-- Witness for C3's guard-logic conjunct on a freshly initialised
client. -/
theorem submit_short_message_deadlocks_witness :
    submit_guard_logic freshClient SendOutcome.sendOk =
      (Except.error "Session not connected",
       (is_connected_body freshClient).2, false) :=
  submit_short_message_deadlocks.2 freshClient SendOutcome.sendOk (by decide)

/-- C8: the patched optional-parameter parser is total (it is a Lean
function, so no input can make it raise) and degrades gracefully: a
well-formed record with an unrecognised tag is skipped and parsing
continues with the records that follow it; a record whose declared length
overruns the data yields no further settings, which coincides with
skipping it and continuing on the remaining data, because such a record
extends past the end of the input; a remainder shorter than a tag/length
header also ends parsing cleanly. -/
theorem parse_optional_params_robust :
    (∀ params t1 t2 l1 l2 value suffix,
       List.length value = l1 * 256 + l2 →
       (params : List (Nat × ParamSpec)).lookup (t1 * 256 + t2) = none →
       parse_optional_params params
           (t1 :: t2 :: l1 :: l2 :: (value ++ suffix)) =
         parse_optional_params params suffix) ∧
    (∀ params t1 t2 l1 l2 rest,
       List.length rest < l1 * 256 + l2 →
       parse_optional_params params (t1 :: t2 :: l1 :: l2 :: rest) = [] ∧
       parse_optional_params params
           ((t1 :: t2 :: l1 :: l2 :: rest).drop (4 + (l1 * 256 + l2))) = []) ∧
    (∀ params data, List.length data < 4 →
       parse_optional_params params data = []) := by
  refine ⟨fun params t1 t2 l1 l2 value suffix hlen hlk => ?_,
    fun params t1 t2 l1 l2 rest h => ⟨?_, ?_⟩,
    fun params data h => ?_⟩
  · rw [parse_optional_params]
    have hc : ¬ (l1 * 256 + l2 > (value ++ suffix).length) := by
      simp [List.length_append, hlen]
    rw [if_neg hc, hlk]
    simp only [List.nil_append]
    rw [← hlen, List.drop_left]
  · rw [parse_optional_params, if_pos (by omega)]
  · rw [List.drop_eq_nil_of_le (by simp; omega)]
    simp [parse_optional_params]
  · rcases data with _ | ⟨t1, _ | ⟨t2, _ | ⟨l1, _ | ⟨l2, rest⟩⟩⟩⟩
    · simp [parse_optional_params]
    · simp [parse_optional_params]
    · simp [parse_optional_params]
    · simp [parse_optional_params]
    · simp at h; omega

/-- Witness for C8: a record with unrecognised tag `0x9999` is skipped and
the suffix is parsed on its own. -/
theorem parse_optional_params_robust_witness :
    parse_optional_params []
        (153 :: 153 :: 0 :: 1 :: ([171] ++ [5, 1, 0, 0])) =
      parse_optional_params [] [5, 1, 0, 0] :=
  parse_optional_params_robust.1 [] 153 153 0 1 [171] [5, 1, 0, 0]
    (by decide) (by decide)

/-! ## Helper lemmas about `dictInsert` -/

/-- The inserted key/value pair is always present afterwards. -/
theorem dictInsert_mem (l : List (Nat × List Nat)) (k : Nat) (v : List Nat) :
    (k, v) ∈ dictInsert l k v := by
  unfold dictInsert
  split
  · next hany =>
    rw [List.any_eq_true] at hany
    obtain ⟨p, hp, hpk⟩ := hany
    refine List.mem_map.mpr ⟨p, hp, ?_⟩
    simp [hpk]
  · exact List.mem_append_right _ (by simp)

/-- Insertion never empties the dict. -/
theorem dictInsert_ne_nil (l : List (Nat × List Nat)) (k : Nat)
    (v : List Nat) : dictInsert l k v ≠ [] := by
  unfold dictInsert
  split
  · next hany =>
    rw [List.any_eq_true] at hany
    obtain ⟨p, hp, _⟩ := hany
    intro hnil
    rw [List.map_eq_nil_iff] at hnil
    rw [hnil] at hp
    exact List.not_mem_nil p hp
  · simp

/-- Entries under a different key survive insertion. -/
theorem dictInsert_mem_of_ne (l : List (Nat × List Nat)) (k : Nat)
    (v : List Nat) (p : Nat × List Nat) (hne : p.1 ≠ k) (h : p ∈ l) :
    p ∈ dictInsert l k v := by
  unfold dictInsert
  split
  · refine List.mem_map.mpr ⟨p, h, ?_⟩
    simp [hne]
  · exact List.mem_append_left _ h

/-- Inserting into the empty dict yields the one-entry dict. -/
theorem dictInsert_nil (k : Nat) (v : List Nat) :
    dictInsert [] k v = [(k, v)] := rfl

/-! ## C2: continuation framing -/

/-- The text transformation the claim (spec property P1) prescribes for an
`"END"`-prefixed reply: drop exactly the 3-character prefix and the
whitespace immediately following it, leaving everything else — in
particular trailing whitespace — untouched. -/
def specEndText (m : List Char) : List Char :=
  (m.drop 3).dropWhile isPySpace

/-- C2 counterexample: for the reply `"END hi "` the code transmits
`"hi"` — `message[3:].strip()` also removes the trailing whitespace —
whereas the claim's text, with only the prefix and the whitespace
immediately after it removed, is `"hi "`. -/
theorem end_framing_counterexample :
    (send_submit_sm stdConsts none "END hi ".toList "123" "234" "0").map
        (fun f => f.short_message) =
      some (asciiEncodeIgnore "hi".toList) ∧
    asciiEncodeIgnore "hi".toList ≠
      asciiEncodeIgnore (specEndText "END hi ".toList) := by
  constructor
  · rfl
  · decide

/-- C2 (amended): whenever `send_submit_sm` submits a frame and the first
3 characters of the reply case-insensitively equal `"END"`, the frame's
`ussd_service_op` value is `0x11` and the transmitted text is the reply
after the prefix with whitespace stripped from *both* ends; for every
other reply the value is `0x02` and the text is transmitted unmodified
(up to the lossy ASCII transmission encoding applied to every frame). -/
theorem end_framing (r : ConstsRegistry) (st : Option String)
    (m : List Char) (src dst sid : String) (u : Nat) (f : SubmittedFrame)
    (hu : resolveUssdTag r = some u) (hu0 : u ≠ 0)
    (hf : send_submit_sm r st m src dst sid = some f) :
    ((m.take 3).map pyUpperChar = ['E', 'N', 'D'] →
       f.short_message = asciiEncodeIgnore (pyStrip (m.drop 3)) ∧
       ∃ ps, f.optional_parameters = some ps ∧ (u, [17]) ∈ ps) ∧
    ((m.take 3).map pyUpperChar ≠ ['E', 'N', 'D'] →
       f.short_message = asciiEncodeIgnore m ∧
       ∃ ps, f.optional_parameters = some ps ∧ (u, [2]) ∈ ps) := by
  simp only [send_submit_sm] at hf
  rw [hu] at hf
  split at hf
  · exact absurd hf (by simp)
  · next sessParams heq =>
    rw [Option.some_inj] at hf
    subst hf
    constructor
    · intro hEnd
      have h3 : 3 ≤ m.length := by
        have hl := congrArg List.length hEnd
        simp only [List.length_map, List.length_take, List.length_cons,
          List.length_nil] at hl
        omega
      simp only [ge_iff_le, h3, if_true, hEnd, beq_self_eq_true,
        if_pos hu0]
      refine ⟨trivial, dictInsert sessParams u [17], ?_, dictInsert_mem _ _ _⟩
      rw [if_neg (dictInsert_ne_nil _ _ _)]
    · intro hEnd
      have hbeq :
          ((if m.length ≥ 3 then (m.take 3).map pyUpperChar else []) ==
            (['E', 'N', 'D'] : List Char)) = false := by
        split
        · exact beq_eq_false_iff_ne.mpr hEnd
        · rfl
      simp only [hbeq, Bool.false_eq_true, if_false, if_pos hu0]
      refine ⟨trivial, dictInsert sessParams u [2], ?_, dictInsert_mem _ _ _⟩
      rw [if_neg (dictInsert_ne_nil _ _ _)]

/-- Witness for C2 (amended) on the reply `"END Bye"`. -/
theorem end_framing_witness :
    ("END Bye".toList.take 3).map pyUpperChar = ['E', 'N', 'D'] ∧
    (("END Bye".toList.take 3).map pyUpperChar = ['E', 'N', 'D'] →
       SubmittedFrame.short_message
           { source_addr := "123", destination_addr := "234",
             short_message := asciiEncodeIgnore "Bye".toList,
             service_type := none,
             optional_parameters := some [(1281, [17])] } =
         asciiEncodeIgnore (pyStrip ("END Bye".toList.drop 3)) ∧
       ∃ ps,
         SubmittedFrame.optional_parameters
             { source_addr := "123", destination_addr := "234",
               short_message := asciiEncodeIgnore "Bye".toList,
               service_type := none,
               optional_parameters := some [(1281, [17])] } = some ps ∧
           ((1281 : Nat), ([17] : List Nat)) ∈ ps) :=
  ⟨by decide,
   (end_framing stdConsts none "END Bye".toList "123" "234" "0" 1281 _
      rfl (by decide) rfl).1⟩

/-! ## C4: optional-parameter attachment -/

/-- C4 counterexample: the session id `""` is *not* the sentinel `"0"`,
yet the frame `send_submit_sm` submits for it carries no
`its_session_info` entry (tag 5003) — Python's truthiness test
`if session_id and session_id != "0"` skips the tag for the empty
string.  The registry is the standard one, so the tag was available. -/
theorem session_tag_counterexample :
    ("" : String) ≠ "0" ∧
    send_submit_sm stdConsts none "Hello".toList "123" "234" "" =
      some { source_addr := "123", destination_addr := "234",
             short_message := asciiEncodeIgnore "Hello".toList,
             service_type := none,
             optional_parameters := some [(1281, [2])] } ∧
    ([((1281 : Nat), ([2] : List Nat))].lookup 5003) = none := by
  refine ⟨by decide, by decide, rfl⟩

/-- C4 (amended): for every *nonempty* session id other than the sentinel
`"0"`, any frame `send_submit_sm` actually submits — submission requires
`int(session_id)` to succeed and fit 4 bytes — carries an
`its_session_info` parameter holding the id's 4-byte big-endian integer
encoding, provided the protocol library exposes a nonzero session tag
distinct from the ussd tag; and every submitted frame carries a
`ussd_service_op` parameter whose value is `0x11` or `0x02`, provided the
library exposes a nonzero tag for it. -/
theorem optional_parameter_attachment :
    (∀ r st m src dst sid f t,
       resolveSessionTag r = some t → t ≠ 0 →
       (∀ u, resolveUssdTag r = some u → u ≠ t) →
       sid ≠ "" → sid ≠ "0" →
       send_submit_sm r st m src dst sid = some f →
       ∃ v bs ps, pyInt? sid.toList = some v ∧ toBytes4BE? v = some bs ∧
         f.optional_parameters = some ps ∧ (t, bs) ∈ ps) ∧
    (∀ r st m src dst sid f u,
       resolveUssdTag r = some u → u ≠ 0 →
       send_submit_sm r st m src dst sid = some f →
       ∃ ps, f.optional_parameters = some ps ∧
         ((u, [17]) ∈ ps ∨ (u, [2]) ∈ ps)) := by
  constructor
  · intro r st m src dst sid f t hsess ht0 hne hs1 hs2 hf
    simp only [send_submit_sm] at hf
    rw [if_pos (And.intro hs1 hs2)] at hf
    simp only [hsess] at hf
    rw [if_pos ht0] at hf
    cases hv : pyInt? sid.toList with
    | none => simp only [hv] at hf; exact absurd hf (by simp)
    | some v =>
      simp only [hv] at hf
      cases hb : toBytes4BE? v with
      | none => simp only [hb] at hf; exact absurd hf (by simp)
      | some bs =>
        simp only [hb] at hf
        rw [Option.some_inj] at hf
        subst hf
        refine ⟨v, bs, ?_⟩
        cases hu : resolveUssdTag r with
        | none =>
          exact ⟨[(t, bs)], rfl, hb, by simp [hu], by simp⟩
        | some u =>
          have hut : u ≠ t := hne u hu
          by_cases hu0 : u = 0
          · exact ⟨[(t, bs)], rfl, hb, by simp [hu, hu0], by simp⟩
          · refine ⟨dictInsert [(t, bs)] u
              (if (if m.length ≥ 3 then (m.take 3).map pyUpperChar
                   else []) == ['E', 'N', 'D'] then [17] else [2]),
              rfl, hb, ?_, ?_⟩
            · simp only [hu, if_pos hu0]
              rw [if_neg (dictInsert_ne_nil _ _ _)]
            · exact dictInsert_mem_of_ne _ _ _ (t, bs)
                (fun h => hut h.symm) (by simp)
  · intro r st m src dst sid f u hu hu0 hf
    simp only [send_submit_sm] at hf
    split at hf
    · exact absurd hf (by simp)
    · next sessParams heq =>
      rw [Option.some_inj] at hf
      subst hf
      simp only [hu, if_pos hu0]
      cases hb : ((if m.length ≥ 3 then (m.take 3).map pyUpperChar
          else []) == (['E', 'N', 'D'] : List Char)) with
      | true =>
        refine ⟨dictInsert sessParams u [17], ?_, Or.inl (dictInsert_mem _ _ _)⟩
        simp only [hb, if_true]
        rw [if_neg (dictInsert_ne_nil _ _ _)]
      | false =>
        refine ⟨dictInsert sessParams u [2], ?_, Or.inr (dictInsert_mem _ _ _)⟩
        simp only [hb, Bool.false_eq_true, if_false]
        rw [if_neg (dictInsert_ne_nil _ _ _)]

/-- Witness for C4 (amended) at session id `"42"` with the standard
tags. -/
theorem optional_parameter_attachment_witness :
    ∃ v bs ps, pyInt? ("42" : String).toList = some v ∧
      toBytes4BE? v = some bs ∧
      SubmittedFrame.optional_parameters
          { source_addr := "123", destination_addr := "234",
            short_message := asciiEncodeIgnore "Hi".toList,
            service_type := none,
            optional_parameters := some [(5003, [0, 0, 0, 42]), (1281, [2])] } =
        some ps ∧
      ((5003 : Nat), bs) ∈ ps :=
  optional_parameter_attachment.1 stdConsts none "Hi".toList "123" "234"
    "42" _ 5003 rfl (by decide) (by decide) (by decide) (by decide)
    (by decide)

/-! ## C9 / C10: session extraction and round-trip -/

/-- A session entry at the head of the optional-parameter dict is decoded
as UTF-8 and returned verbatim. -/
theorem extractLoop_bytes_head (r : ConstsRegistry) (bs : List Nat)
    (cs : List Char) (rest : List (TagKey × PyVal))
    (h : utf8Decode? bs = some cs) :
    extractLoop r ((TagKey.str "its_session_info", PyVal.bytes bs) :: rest) =
      Except.ok (some (String.mk cs)) := by
  simp [extractLoop, sessionTagMatches, h]

/-- `run` consumes its PDU only through the three address/payload fields
and the extracted session id. -/
theorem run_congr (cfg : RunConfig) (env : RunEnv) (p1 p2 : Pdu)
    (hd : p1.destination_addr = p2.destination_addr)
    (hs : p1.source_addr = p2.source_addr)
    (hm : p1.short_message = p2.short_message)
    (hsid : run_session_id env.reg p1 = run_session_id env.reg p2) :
    run cfg env p1 = run cfg env p2 := by
  unfold run
  rw [hd, hs, hm, hsid]

/-- C9: a recognised `its_session_info` optional parameter is returned by
`_extract_session_id` as its verbatim UTF-8 decoding (first conjunct); and
for the extracted session id `"42"` the frame built by `send_submit_sm`
carries a session tag encoding 42 — `int("42")` as 4 big-endian bytes —
rather than no session tag, whenever the library exposes a nonzero session
tag distinct from the ussd tag (second conjunct). -/
theorem session_roundtrip :
    (∀ r d s m bs cs rest,
       utf8Decode? bs = some cs →
       extract_session_id r
           { destination_addr := d, source_addr := s, short_message := m,
             optional_parameters :=
               (TagKey.str "its_session_info", PyVal.bytes bs) :: rest } =
         Except.ok (some (String.mk cs))) ∧
    (∀ r st m src dst t,
       resolveSessionTag r = some t → t ≠ 0 →
       (∀ u, resolveUssdTag r = some u → u ≠ t) →
       ∃ f ps, send_submit_sm r st m src dst "42" = some f ∧
         f.optional_parameters = some ps ∧ (t, [0, 0, 0, 42]) ∈ ps) := by
  constructor
  · intro r d s m bs cs rest h
    exact extractLoop_bytes_head r bs cs rest h
  · intro r st m src dst t hsess ht0 hne
    simp only [send_submit_sm]
    rw [if_pos (by decide : ("42" : String) ≠ "" ∧ ("42" : String) ≠ "0")]
    simp only [hsess]
    rw [if_pos ht0]
    have h1 : pyInt? ("42" : String).toList = some (42 : Int) := by decide
    have h2 : toBytes4BE? 42 = some [0, 0, 0, 42] := by decide
    simp only [h1, h2]
    cases hu : resolveUssdTag r with
    | none =>
      exact ⟨_, [(t, [0, 0, 0, 42])], rfl, by simp [hu], by simp⟩
    | some u =>
      have hut : u ≠ t := hne u hu
      by_cases hu0 : u = 0
      · exact ⟨_, [(t, [0, 0, 0, 42])], rfl, by simp [hu, hu0], by simp⟩
      · refine ⟨_, dictInsert [(t, [0, 0, 0, 42])] u
          (if (if m.length ≥ 3 then (m.take 3).map pyUpperChar
               else []) == ['E', 'N', 'D'] then [17] else [2]),
          rfl, ?_, ?_⟩
        · simp only [hu, if_pos hu0]
          rw [if_neg (dictInsert_ne_nil _ _ _)]
        · exact dictInsert_mem_of_ne _ _ _ (t, [0, 0, 0, 42])
            (fun h => hut h.symm) (by simp)

/-- Witness for C9: token bytes `b"42"` and the standard tag registry. -/
theorem session_roundtrip_witness :
    (extract_session_id stdConsts
        { destination_addr := none, source_addr := none,
          short_message := none,
          optional_parameters :=
            [(TagKey.str "its_session_info", PyVal.bytes [52, 50])] } =
      Except.ok (some (String.mk ['4', '2']))) ∧
    (∃ f ps, send_submit_sm stdConsts none "Hi".toList "123" "234" "42" =
        some f ∧
      f.optional_parameters = some ps ∧
      ((5003 : Nat), ([0, 0, 0, 42] : List Nat)) ∈ ps) :=
  ⟨session_roundtrip.1 stdConsts none none none [52, 50] ['4', '2'] []
     (by decide),
   session_roundtrip.2 stdConsts none "Hi".toList "123" "234" 5003 rfl
     (by decide) (fun u hu => by injection hu with h; omega)⟩

/-- C10: an inbound event whose session token decodes to `"0"` is
processed identically to one with no token at all — the pipeline session
id is the sentinel `"0"` in both cases (first conjunct), `run` produces
exactly the same observable behaviour for the two PDUs whatever the
configuration and environment (second conjunct), and a frame submitted
with session id `"0"` carries no session tag: every optional parameter it
carries is the `ussd_service_op` entry (third conjunct). -/
theorem session_zero_indistinguishable :
    (∀ r d s m,
       run_session_id r
           { destination_addr := d, source_addr := s, short_message := m,
             optional_parameters :=
               [(TagKey.str "its_session_info", PyVal.bytes [48])] } =
         Except.ok "0" ∧
       run_session_id r
           { destination_addr := d, source_addr := s, short_message := m,
             optional_parameters := [] } =
         Except.ok "0") ∧
    (∀ cfg env d s m,
       run cfg env
           { destination_addr := d, source_addr := s, short_message := m,
             optional_parameters :=
               [(TagKey.str "its_session_info", PyVal.bytes [48])] } =
         run cfg env
           { destination_addr := d, source_addr := s, short_message := m,
             optional_parameters := [] }) ∧
    (∀ r st m src dst f ps p,
       send_submit_sm r st m src dst "0" = some f →
       f.optional_parameters = some ps → p ∈ ps →
       ∃ u, resolveUssdTag r = some u ∧ p.1 = u ∧
         (p.2 = [17] ∨ p.2 = [2])) := by
  have hzero : ∀ r d s m,
      run_session_id r
          { destination_addr := d, source_addr := s, short_message := m,
            optional_parameters :=
              [(TagKey.str "its_session_info", PyVal.bytes [48])] } =
        Except.ok "0" := by
    intro r d s m
    unfold run_session_id extract_session_id
    rw [extractLoop_bytes_head r [48] ['0'] [] (by decide)]
  refine ⟨fun r d s m => ⟨hzero r d s m, rfl⟩, fun cfg env d s m => ?_, ?_⟩
  · exact run_congr cfg env _ _ rfl rfl rfl
      ((hzero env.reg d s m).trans rfl.symm)
  · intro r st m src dst f ps p hf hps hp
    simp only [send_submit_sm] at hf
    rw [if_neg (by simp : ¬(("0" : String) ≠ "" ∧ ("0" : String) ≠ "0"))]
      at hf
    rw [Option.some_inj] at hf
    subst hf
    simp only at hps
    cases hu : resolveUssdTag r with
    | none => simp only [hu] at hps; exact absurd hps (by simp)
    | some u =>
      by_cases hu0 : u = 0
      · simp only [hu, hu0, ne_eq, not_true_eq_false, if_false] at hps
        exact absurd hps (by simp)
      · simp only [hu] at hps
        rw [if_pos hu0, dictInsert_nil] at hps
        rw [if_neg (by simp), Option.some_inj] at hps
        subst hps
        rcases List.mem_singleton.mp hp with hpu
        refine ⟨u, rfl, ?_⟩
        rw [hpu]
        constructor
        · rfl
        · by_cases hend : ((if m.length ≥ 3 then
              (m.take 3).map pyUpperChar else []) ==
                (['E', 'N', 'D'] : List Char)) = true
          · rw [if_pos hend]; exact Or.inl rfl
          · rw [if_neg hend]; exact Or.inr rfl

/-- Witness for C10 with the standard registry: the frame submitted for
session id `"0"` carries only the continue-op parameter. -/
theorem session_zero_indistinguishable_witness :
    ∃ u, resolveUssdTag stdConsts = some u ∧
      ((1281 : Nat), ([2] : List Nat)).1 = u ∧
      (((1281 : Nat), ([2] : List Nat)).2 = [17] ∨
        ((1281 : Nat), ([2] : List Nat)).2 = [2]) :=
  session_zero_indistinguishable.2.2 stdConsts none "Menu".toList "123"
    "234"
    { source_addr := "123", destination_addr := "234",
      short_message := asciiEncodeIgnore "Menu".toList,
      service_type := none, optional_parameters := some [(1281, [2])] }
    [(1281, [2])] (1281, [2]) (by decide) rfl (by decide)

/-! ## C1: one backend request per inbound event -/

/-- `load_configuration` never assigns a `network` attribute: its
assignment list has no `"network"` key. -/
theorem load_configuration_no_network (src : ConfigSources)
    (l : List (String × ConfVal)) (h : load_configuration src = some l) :
    l.lookup "network" = none := by
  unfold load_configuration at h
  split at h
  · rw [Option.some_inj] at h
    subst h
    rfl
  · exact absurd h (by simp)

/-- When the config object has no `network` attribute, `run` performs no
backend request and submits nothing: evaluating the request-URL f-string
raises `AttributeError`, which `run`'s `except` block swallows. -/
theorem run_no_network (cfg : RunConfig) (env : RunEnv) (p : Pdu)
    (h : cfg.network = none) : run cfg env p = ([], none) := by
  unfold run
  rw [h]
  split
  · rfl
  · split
    · rfl
    · split
      · split
        · simp
        · simp
      · simp [pyStrip]

/-- C1 (code bug): `run` builds its request URL from `self.network`, but
`load_configuration` never sets a `network` attribute (first conjunct), so
with any loaded configuration every inbound event yields **zero** backend
requests instead of the claimed one — the f-string raises
`AttributeError` before `http_request` is reached (second conjunct).  Had
the attribute been present, `run` would issue exactly one request carrying
the subscriber address, the session id, the percent-encoded input and the
configured routing parameters, confirming the claim as the intent (third
conjunct). -/
theorem one_request_per_event_requires_network :
    (∀ src l, load_configuration src = some l →
       l.lookup "network" = none) ∧
    (∀ src l env p, load_configuration src = some l →
       run (mkRunConfig l) env p = ([], none)) ∧
    (∀ cfg env dbs sbs mbs ops sid nw dcs scs,
       cfg.network = some nw →
       utf8Decode? dbs = some dcs →
       utf8Decode? sbs = some scs →
       pyStrip (utf8DecodeIgnore mbs) ≠ [] →
       run_session_id env.reg
           { destination_addr := some dbs, source_addr := some sbs,
             short_message := some mbs, optional_parameters := ops } =
         Except.ok sid →
       (run cfg env
           { destination_addr := some dbs, source_addr := some sbs,
             short_message := some mbs, optional_parameters := ops }).1 =
         [cfg.process_url ++ "?msisdn=" ++ String.mk scs ++
          "&sessionid=" ++ sid ++ "&input=" ++
          String.mk (pyQuote (utf8DecodeIgnore mbs)) ++
          "&sendussd_port=" ++ toString cfg.send_ussd_port ++
          "&network=" ++ nw]) := by
  refine ⟨load_configuration_no_network,
    fun src l env p h => run_no_network _ _ _ ?_, ?_⟩
  · simp [mkRunConfig, load_configuration_no_network src l h]
  · intro cfg env dbs sbs mbs ops sid nw dcs scs hnw hdd hsd hpay hsid
    unfold run
    simp only [hdd, hsd, hsid, hnw, Option.map_some']
    rw [if_pos hpay]
    cases env.connected <;> rfl

/-- The empty configuration sources: no environment variables, no file
keys. -/
def srcNoneConfig : ConfigSources :=
  { env := fun _ => none, file := fun _ => none, fileInt := fun _ => none }

/-- The assignment list `load_configuration` produces from
`srcNoneConfig`. -/
def emptyLoadedConfig : List (String × ConfVal) :=
  [ ("server_ip", ConfVal.vnone), ("server_port", ConfVal.vint 0),
    ("account", ConfVal.vnone), ("password", ConfVal.vnone),
    ("system_type", ConfVal.vstr ""), ("service_type", ConfVal.vnone),
    ("process_url", ConfVal.vstr ""), ("service_code", ConfVal.vnone),
    ("send_ussd_username", ConfVal.vnone),
    ("send_ussd_password", ConfVal.vnone),
    ("send_ussd_port", ConfVal.vint 0),
    ("number_of_threads", ConfVal.vint 10) ]

/-- A dispatch environment with the standard tags, a backend that replies
`"END Bye"`, and a connected client. -/
def stdRunEnv : RunEnv :=
  { reg := stdConsts, backend := BackendOutcome.body "END Bye",
    connected := true }

/-- A deliver event: destination `"2"`, source `"233"`, payload `"1"`, no
optional parameters. -/
def samplePdu : Pdu :=
  { destination_addr := some [50], source_addr := some [50, 51, 51],
    short_message := some [49], optional_parameters := [] }

/-- A config object as it would look if the `network` attribute existed. -/
def cfgWithNetwork : RunConfig :=
  { process_url := "http://localhost:8080/ussd/process"
    send_ussd_port := 8080
    network := some "mtn"
    service_code := "*123#"
    service_type := some "USSD" }

/-- Witness for C1: under the configuration actually loaded the sample
event produces no request, while the same event with a `network` attribute
present produces exactly the claimed request. -/
theorem one_request_per_event_requires_network_witness :
    (run (mkRunConfig emptyLoadedConfig) stdRunEnv samplePdu = ([], none)) ∧
    ((run cfgWithNetwork stdRunEnv samplePdu).1 =
      [cfgWithNetwork.process_url ++ "?msisdn=" ++ String.mk ['2', '3', '3'] ++
       "&sessionid=" ++ "0" ++ "&input=" ++
       String.mk (pyQuote (utf8DecodeIgnore [49])) ++
       "&sendussd_port=" ++ toString cfgWithNetwork.send_ussd_port ++
       "&network=" ++ "mtn"]) :=
  ⟨one_request_per_event_requires_network.2.1 srcNoneConfig
     emptyLoadedConfig stdRunEnv samplePdu rfl,
   one_request_per_event_requires_network.2.2 cfgWithNetwork stdRunEnv
     [50] [50, 51, 51] [49] [] "0" "mtn" ['2'] ['2', '3', '3'] rfl
     (by decide) (by decide)
     (by decide)
     (by decide)⟩

end PySmpp
